import Mathlib

/-!
Shallow embedding of the vector-store facade of the local-document-agent
repository (`src/vector_store.py`, `src/vector_service.py`).

ChromaDB collections are modelled as lists of chunk records; embeddings and
nearest-neighbour distances are supplied by an environment (`Env`), since the
sentence-transformer model and the vector index are external black boxes
(spec section 4.1/4.2: `embed(text) -> vector`, `query` ranked by distance).
Store operations that can raise are modelled with `Except Unit`, with failure
injection flags in the environment; the facade's `try/except` blocks become
`match` on the `Except` value.
-/

/-- Per-chunk metadata dictionary built by `VectorStore.add_document_chunks`
(`src/vector_store.py` lines 149-164).  The three policy-specific keys are
present only for policy documents, hence `Option`. -/
structure ChunkMetadata where
  document_id : String
  document_name : String
  document_type : String
  chunk_index : Nat
  chunk_length : Nat
  section_label : String
  clause_type : Option String
  risk_level : Option String
  policy_id : Option String
deriving DecidableEq

/-- One record stored in a ChromaDB collection: id, embedding, document text
and metadata (spec section 3, "Chunk"). -/
structure ChunkRec where
  id : String
  embedding : List ℤ
  text : String
  metadata : ChunkMetadata
deriving DecidableEq

/-- The `VectorStore` state: the two collections created by
`_initialize_chromadb`, plus the `collection` attribute that
`get_document_info` reads (`self.collection`, line 307).  No method of the
class ever assigns `self.collection`, so reading it raises `AttributeError`;
we model the attribute as an `Option` that is `none` on every store the code
constructs. -/
structure VectorStore where
  contract_collection : List ChunkRec
  policy_collection : List ChunkRec
  collection : Option (List ChunkRec)

/-- The store produced by `VectorStore.__init__` on a fresh persist
directory: both collections empty, `self.collection` never assigned. -/
def initial_vector_store : VectorStore :=
  { contract_collection := [], policy_collection := [], collection := none }

/-- External environment: the embedding model and distance metric (delegated
black boxes, spec sections 4.1 and 4.2), plus failure-injection flags saying
whether the embedding model or an underlying store operation raises. -/
structure Env where
  embed : String → List ℤ
  dist : List ℤ → List ℤ → ℤ
  embedFails : Bool
  addFails : Bool
  deleteFails : Bool
  queryFails : Bool
  getFails : Bool

/-- `sentence_transformers` encode call (`generate_embedding`,
`src/vector_store.py` lines 90-106): re-raises on failure. -/
def generate_embedding (env : Env) (text : String) : Except Unit (List ℤ) :=
  if env.embedFails then .error () else .ok (env.embed text)

/-- Model of `collection.delete(where={"document_id": document_id})`:
removes every record whose metadata `document_id` matches. -/
def coll_delete (fails : Bool) (recs : List ChunkRec) (document_id : String) :
    Except Unit (List ChunkRec) :=
  if fails then .error ()
  else .ok (recs.filter (fun r => r.metadata.document_id ≠ document_id))

/-- Model of `collection.add(embeddings, metadatas, ids, documents)`: upsert
semantics per spec section 4.2 ("add: upserts"); records whose id collides
with a new id are replaced, new records appended. -/
def coll_add (fails : Bool) (recs newRecs : List ChunkRec) :
    Except Unit (List ChunkRec) :=
  if fails then .error ()
  else .ok ((recs.filter (fun r => newRecs.all (fun n => n.id ≠ r.id))) ++ newRecs)

/-- Model of `collection.get(where=...)`: full scan, optionally filtered by
`document_id`. -/
def coll_get (fails : Bool) (recs : List ChunkRec) (whereDoc : Option String) :
    Except Unit (List ChunkRec) :=
  if fails then .error ()
  else .ok (match whereDoc with
    | none => recs
    | some did => recs.filter (fun r => r.metadata.document_id = did))

/-- Insert a (record, distance) pair into a distance-ascending list. -/
def insert_ranked (p : ChunkRec × ℤ) : List (ChunkRec × ℤ) → List (ChunkRec × ℤ)
  | [] => [p]
  | q :: rest => if p.2 ≤ q.2 then p :: q :: rest else q :: insert_ranked p rest

/-- Rank records by ascending distance (insertion sort); the concrete order
of the delegated nearest-neighbour engine is unspecified (spec section 4.2),
this is one faithful deterministic model of it. -/
def rank_by_distance : List (ChunkRec × ℤ) → List (ChunkRec × ℤ)
  | [] => []
  | p :: rest => insert_ranked p (rank_by_distance rest)

/-- Model of `collection.query(query_embeddings=[qe], n_results=top_k,
where=...)`: records matching the where clause, ranked by distance to the
query embedding, truncated to `n_results`. -/
def coll_query (fails : Bool) (dist : List ℤ → List ℤ → ℤ) (recs : List ChunkRec)
    (qe : List ℤ) (n_results : Nat) (whereDoc : Option String) :
    Except Unit (List (ChunkRec × ℤ)) :=
  if fails then .error ()
  else
    let matching := match whereDoc with
      | none => recs
      | some did => recs.filter (fun r => r.metadata.document_id = did)
    .ok ((rank_by_distance (matching.map (fun r => (r, dist qe r.embedding)))).take n_results)

/-- Python `x or default` for an optional string argument: both `None` and
the empty string are falsy, so both select the default
(`clause_type or "general"` etc., `src/vector_store.py` lines 161-163). -/
def or_default (x : Option String) (d : String) : String :=
  match x with
  | none => d
  | some s => if s = "" then d else s

/-- Metadata dict built for the `i`-th chunk in `add_document_chunks`
(`src/vector_store.py` lines 149-164). -/
def mk_chunk_metadata (document_id document_name document_type : String)
    (clause_type risk_level policy_id : Option String)
    (i : Nat) (chunk : String) : ChunkMetadata :=
  { document_id := document_id
    document_name := document_name
    document_type := document_type
    chunk_index := i
    chunk_length := chunk.length
    section_label := "chunk_" ++ toString (i + 1)
    clause_type := if document_type = "policy" then some (or_default clause_type "general") else none
    risk_level := if document_type = "policy" then some (or_default risk_level "medium") else none
    policy_id := if document_type = "policy" then some (or_default policy_id document_id) else none }

/-- The record built for the `i`-th chunk in `add_document_chunks`:
id `f"{document_id}_chunk_{i}"`, embedding of the chunk text, the text
itself, and the metadata dict. -/
def mk_chunk_rec (env : Env) (document_id document_name document_type : String)
    (clause_type risk_level policy_id : Option String)
    (i : Nat) (chunk : String) : ChunkRec :=
  { id := document_id ++ "_chunk_" ++ toString i
    embedding := env.embed chunk
    text := chunk
    metadata := mk_chunk_metadata document_id document_name document_type
      clause_type risk_level policy_id i chunk }

/-- The batch of records `add_document_chunks` builds from its chunk list
(the loop at `src/vector_store.py` lines 143-170). -/
def new_records (env : Env) (document_id document_name : String) (chunks : List String)
    (document_type : String) (clause_type risk_level policy_id : Option String) :
    List ChunkRec :=
  chunks.enum.map (fun p =>
    mk_chunk_rec env document_id document_name document_type
      clause_type risk_level policy_id p.1 p.2)

/-- The collection selected by `document_type`: the source tests only for
the exact string `"contract"`; every other type selects the policy
collection (`src/vector_store.py` lines 141, 211, 286). -/
def target_collection (document_type : String) (st : VectorStore) : List ChunkRec :=
  if document_type = "contract" then st.contract_collection else st.policy_collection

/-- Replace the collection selected by `document_type` (helper for writing
back the updated list). -/
def set_target_collection (document_type : String) (st : VectorStore)
    (recs : List ChunkRec) : VectorStore :=
  if document_type = "contract" then { st with contract_collection := recs }
  else { st with policy_collection := recs }

/-- `VectorStore._delete_document_chunks` (`src/vector_store.py` lines
273-294): deletes all chunks matching `document_id` from the collection
selected by `document_type`; any store error is caught and turned into
`False` with the state unchanged. -/
def delete_document_chunks (env : Env) (st : VectorStore) (document_id : String)
    (document_type : String) : VectorStore × Bool :=
  match coll_delete env.deleteFails (target_collection document_type st) document_id with
  | .error _ => (st, false)
  | .ok recs => (set_target_collection document_type st recs, true)

/-- `VectorStore.add_document_chunks` (`src/vector_store.py` lines 108-185):
first clears existing chunks for the document (result ignored), returns
`True` immediately on an empty chunk list, otherwise embeds every chunk,
builds the records and adds them to the selected collection; any exception
in the `try` block yields `False`. -/
def add_document_chunks (env : Env) (st : VectorStore) (document_id document_name : String)
    (chunks : List String) (document_type : String)
    (clause_type risk_level policy_id : Option String) : VectorStore × Bool :=
  let st := (delete_document_chunks env st document_id document_type).1
  if chunks = [] then (st, true)
  else if env.embedFails then (st, false)
  else
    let recs := new_records env document_id document_name chunks document_type
      clause_type risk_level policy_id
    match coll_add env.addFails (target_collection document_type st) recs with
    | .error _ => (st, false)
    | .ok recs' => (set_target_collection document_type st recs', true)

/-- One formatted search result (`src/vector_store.py` lines 225-232). -/
structure SearchResult where
  chunk_id : String
  text : String
  metadata : ChunkMetadata
  similarity_score : ℤ
  distance : ℤ
  collection_type : String
deriving DecidableEq

/-- Formatting of one raw query hit into a result dict: `similarity_score`
is `1 - distance` (`src/vector_store.py` line 229). -/
def format_result (collection_type : String) (p : ChunkRec × ℤ) : SearchResult :=
  { chunk_id := p.1.id
    text := p.1.text
    metadata := p.1.metadata
    similarity_score := 1 - p.2
    distance := p.2
    collection_type := collection_type }

/-- The `where` clause of `search_chunks`: Python's `if document_id:` treats
both `None` and the empty string as falsy, so an empty-string id yields no
filter (`src/vector_store.py` lines 206-208). -/
def where_of (document_id : Option String) : Option String :=
  match document_id with
  | none => none
  | some d => if d = "" then none else some d

/-- Query-and-format stage of `search_chunks` after the collection has been
selected (`src/vector_store.py` lines 214-236). -/
def query_and_format (env : Env) (recs : List ChunkRec) (qe : List ℤ)
    (where_clause : Option String) (top_k : Nat) (collection_type : String) :
    List SearchResult :=
  match coll_query env.queryFails env.dist recs qe top_k where_clause with
  | .error _ => []
  | .ok ranked => ranked.map (format_result collection_type)

/-- `VectorStore.search_chunks` (`src/vector_store.py` lines 187-240):
embeds the query, builds the optional `document_id` filter, selects the
collection (`"contract"` exactly, else policy) and queries it; any
exception in the `try` block yields `[]`. -/
def search_chunks (env : Env) (st : VectorStore) (query : String)
    (document_id : Option String) (top_k : Nat) (collection_type : String) :
    List SearchResult :=
  match generate_embedding env query with
  | .error _ => []
  | .ok qe =>
      let recs := if collection_type = "contract" then st.contract_collection
                  else st.policy_collection
      query_and_format env recs qe (where_of document_id) top_k collection_type

/-- Return value of `search_policy_aware`. -/
structure PolicySearchResult where
  contract_chunks : List SearchResult
  policy_chunks : List SearchResult
  query : String
deriving DecidableEq

/-- `VectorStore.search_policy_aware` (`src/vector_store.py` lines 242-271):
contract collection searched with the given `document_id` filter, policy
collection searched with `None`; `search_chunks` never raises, so the outer
`except` branch is unreachable. -/
def search_policy_aware (env : Env) (st : VectorStore) (query : String)
    (document_id : Option String) (contract_top_k policy_top_k : Nat) :
    PolicySearchResult :=
  { contract_chunks := search_chunks env st query document_id contract_top_k "contract"
    policy_chunks := search_chunks env st query none policy_top_k "policy"
    query := query }

/-- Return value of `get_document_info`; the success path additionally
carries the `document_id` key. -/
structure DocumentInfo where
  chunk_count : Nat
  document_name : Option String
  document_id : Option String
deriving DecidableEq

/-- `VectorStore.get_document_info` (`src/vector_store.py` lines 296-324).
It reads `self.collection`, an attribute no method ever assigns; on every
store the code constructs this raises `AttributeError`, which the `except`
swallows, returning `{"chunk_count": 0, "document_name": None}`.  The
`some` branch models the remaining source text, reachable only if the
attribute were ever set. -/
def get_document_info (env : Env) (st : VectorStore) (document_id : String) :
    DocumentInfo :=
  match st.collection with
  | none => { chunk_count := 0, document_name := none, document_id := none }
  | some recs =>
      match coll_get env.getFails recs (some document_id) with
      | .error _ => { chunk_count := 0, document_name := none, document_id := none }
      | .ok results =>
          if results = [] then { chunk_count := 0, document_name := none, document_id := none }
          else
            { chunk_count := results.length
              document_name := (results.map (fun r => r.metadata.document_name)).head?
              document_id := some document_id }

/-- One per-document summary built by `_group_documents_by_id`
(`src/vector_store.py` lines 359-380); the three policy fields are added
only when the group's `doc_type` is `"policy"`. -/
structure DocumentSummary where
  document_id : String
  document_name : String
  document_type : String
  chunk_count : Nat
  clause_type : Option String
  risk_level : Option String
  policy_id : Option String
deriving DecidableEq

/-- The summary seeded for the first chunk encountered with a given
`document_id` (`src/vector_store.py` lines 365-377): `chunk_count` starts
at 0, policy fields default via `metadata.get(key, default)`. -/
def group_seed (doc_type : String) (m : ChunkMetadata) : DocumentSummary :=
  { document_id := m.document_id
    document_name := m.document_name
    document_type := doc_type
    chunk_count := 0
    clause_type := if doc_type = "policy" then some (m.clause_type.getD "general") else none
    risk_level := if doc_type = "policy" then some (m.risk_level.getD "medium") else none
    policy_id := if doc_type = "policy" then some (m.policy_id.getD m.document_id) else none }

/-- One iteration of the grouping loop (`src/vector_store.py` lines
362-378): seed a summary if the id is new, then increment its
`chunk_count`.  The Python dict is modelled as a list in insertion
order. -/
def group_step (doc_type : String) (docs : List DocumentSummary) (m : ChunkMetadata) :
    List DocumentSummary :=
  let docs := if docs.any (fun d => d.document_id = m.document_id) then docs
              else docs ++ [group_seed doc_type m]
  docs.map (fun d => if d.document_id = m.document_id
                     then { d with chunk_count := d.chunk_count + 1 } else d)

/-- `VectorStore._group_documents_by_id` (`src/vector_store.py` lines
359-380). -/
def group_documents_by_id (results : List ChunkRec) (doc_type : String) :
    List DocumentSummary :=
  (results.map (fun r => r.metadata)).foldl (group_step doc_type) []

/-- `VectorStore.list_documents` (`src/vector_store.py` lines 326-357):
full scan of the contract and/or policy collections, grouped per
collection, concatenated; any store error yields `[]`. -/
def list_documents (env : Env) (st : VectorStore) (document_type : Option String) :
    List DocumentSummary :=
  let contract_part : Except Unit (List DocumentSummary) :=
    if document_type = none ∨ document_type = some "contract" then
      match coll_get env.getFails st.contract_collection none with
      | .error e => .error e
      | .ok res => .ok (if res = [] then [] else group_documents_by_id res "contract")
    else .ok []
  let policy_part : Except Unit (List DocumentSummary) :=
    if document_type = none ∨ document_type = some "policy" then
      match coll_get env.getFails st.policy_collection none with
      | .error e => .error e
      | .ok res => .ok (if res = [] then [] else group_documents_by_id res "policy")
    else .ok []
  match contract_part, policy_part with
  | .ok cs, .ok ps => cs ++ ps
  | _, _ => []

/-- The `/delete_document/{document_id}` handler (`src/vector_service.py`
lines 228-248): calls `_delete_document_chunks(document_id)` with the
default `document_type="contract"`, so only the contract collection is
touched. -/
def service_delete_document (env : Env) (st : VectorStore) (document_id : String) :
    VectorStore × Bool :=
  delete_document_chunks env st document_id "contract"

/-- A concrete healthy environment (no injected failures) with a trivial
embedding model and metric, used for concrete evaluations. -/
def ok_env : Env :=
  { embed := fun s => [(s.length : ℤ)]
    dist := fun _ _ => 0
    embedFails := false
    addFails := false
    deleteFails := false
    queryFails := false
    getFails := false }

/-- A concrete environment in which every underlying store operation
raises. -/
def fail_env : Env :=
  { embed := fun s => [(s.length : ℤ)]
    dist := fun _ _ => 0
    embedFails := false
    addFails := true
    deleteFails := true
    queryFails := true
    getFails := true }

/-- Store reached from a fresh store by adding one contract chunk for
document `doc-1`. -/
def store_one_contract : VectorStore :=
  (add_document_chunks ok_env initial_vector_store "doc-1" "Contract.pdf"
    ["alpha"] "contract" none none none).1

/-- Store reached from a fresh store by adding document `D` first as a
contract and then as a policy: `D` then lives in both collections. -/
def store_both_collections : VectorStore :=
  (add_document_chunks ok_env
    (add_document_chunks ok_env initial_vector_store "D" "n1" ["a"] "contract"
      none none none).1
    "D" "n2" ["b", "c"] "policy" none none none).1

example : store_one_contract.contract_collection.map (fun r => r.id) = ["doc-1_chunk_0"] := by decide
example : (search_policy_aware ok_env store_one_contract "q" (some "") 5 5).contract_chunks.map
    (fun r => r.metadata.document_id) = ["doc-1"] := by decide
example : ((list_documents ok_env store_both_collections none).filter
    (fun d => d.document_id = "D")).length = 2 := by decide
example : get_document_info ok_env store_one_contract "doc-1" =
    { chunk_count := 0, document_name := none, document_id := none } := by decide

/-! ### Basic lemmas about the embedded operations -/

theorem target_set_target (document_type : String) (st : VectorStore) (recs : List ChunkRec) :
    target_collection document_type (set_target_collection document_type st recs) = recs := by
  unfold target_collection set_target_collection
  by_cases h : document_type = "contract" <;> simp [h]

theorem delete_document_chunks_ok (env : Env) (st : VectorStore)
    (document_id document_type : String) (hd : env.deleteFails = false) :
    delete_document_chunks env st document_id document_type =
      (set_target_collection document_type st
        ((target_collection document_type st).filter
          (fun r => r.metadata.document_id ≠ document_id)), true) := by
  simp [delete_document_chunks, coll_delete, hd]

theorem filter_ne_filter_eq_nil (l : List ChunkRec) (did : String) :
    (l.filter (fun r => r.metadata.document_id ≠ did)).filter
      (fun r => r.metadata.document_id = did) = [] := by
  rw [List.filter_filter, List.filter_eq_nil_iff]
  intro a _
  simp only [Bool.and_eq_true, decide_eq_true_eq]
  intro h
  exact absurd h.1 h.2

theorem mem_new_records_docid (env : Env) (document_id document_name : String)
    (chunks : List String) (document_type : String)
    (clause_type risk_level policy_id : Option String) (r : ChunkRec)
    (hr : r ∈ new_records env document_id document_name chunks document_type
      clause_type risk_level policy_id) :
    r.metadata.document_id = document_id := by
  unfold new_records at hr
  obtain ⟨p, -, rfl⟩ := List.mem_map.mp hr
  rfl

theorem search_chunks_result (env : Env) (st : VectorStore) (query : String)
    (document_id : Option String) (top_k : Nat) (collection_type : String)
    (r : SearchResult)
    (hr : r ∈ search_chunks env st query document_id top_k collection_type) :
    ∃ p, r = format_result collection_type p := by
  unfold search_chunks at hr
  cases he : env.embedFails
  · simp only [generate_embedding, he, Bool.false_eq_true, if_false] at hr
    unfold query_and_format at hr
    cases hq : env.queryFails
    · simp only [coll_query, hq, Bool.false_eq_true, if_false] at hr
      obtain ⟨p, -, rfl⟩ := List.mem_map.mp hr
      exact ⟨p, rfl⟩
    · simp [coll_query, hq] at hr
  · simp [generate_embedding, he] at hr

/-! ### Claim theorems -/

/-- C5: every result returned by `search_chunks` has
`similarity_score = 1 - distance`, the distance being the one reported by
the underlying query for that result. -/
theorem c5_similarity_is_one_minus_distance (env : Env) (st : VectorStore)
    (query : String) (document_id : Option String) (top_k : Nat)
    (collection_type : String) (r : SearchResult)
    (hr : r ∈ search_chunks env st query document_id top_k collection_type) :
    r.similarity_score = 1 - r.distance := by
  obtain ⟨p, rfl⟩ := search_chunks_result env st query document_id top_k
    collection_type r hr
  rfl

/-- A concrete search result used to witness C5. -/
def sample_result : SearchResult :=
  format_result "contract"
    (mk_chunk_rec ok_env "doc-1" "Contract.pdf" "contract" none none none 0 "alpha", 0)

/-- Witness for C5 at a concrete store and query. -/
theorem c5_witness :
    sample_result ∈ search_chunks ok_env store_one_contract "q" none 5 "contract" ∧
    sample_result.similarity_score = 1 - sample_result.distance := by
  have hs : search_chunks ok_env store_one_contract "q" none 5 "contract" = [sample_result] := by
    decide
  have hm : sample_result ∈ search_chunks ok_env store_one_contract "q" none 5 "contract" := by
    rw [hs]; exact List.mem_singleton.mpr rfl
  exact ⟨hm, c5_similarity_is_one_minus_distance ok_env store_one_contract "q" none 5
    "contract" sample_result hm⟩

/-- C6: whenever an underlying store operation raises, the facade degrades:
`add_document_chunks` returns `False` (when there are chunks to insert),
`search_chunks` returns `[]`, `search_policy_aware` returns empty contract
and policy lists, `_delete_document_chunks` returns `False`, and
`list_documents` returns `[]`; no error propagates. -/
theorem c6_store_errors_degrade (env : Env) (st : VectorStore)
    (document_id document_name : String) (chunks : List String)
    (document_type : String) (clause_type risk_level policy_id : Option String)
    (query : String) (odid : Option String) (top_k ctk ptk : Nat)
    (collection_type : String) (dto : Option String) :
    (env.addFails = true → chunks ≠ [] →
      (add_document_chunks env st document_id document_name chunks document_type
        clause_type risk_level policy_id).2 = false) ∧
    (env.queryFails = true →
      search_chunks env st query odid top_k collection_type = []) ∧
    (env.queryFails = true →
      search_policy_aware env st query odid ctk ptk =
        { contract_chunks := [], policy_chunks := [], query := query }) ∧
    (env.deleteFails = true →
      (delete_document_chunks env st document_id document_type).2 = false) ∧
    (env.getFails = true → list_documents env st dto = []) := by
  have hsearch : env.queryFails = true → ∀ q odid k ct,
      search_chunks env st q odid k ct = [] := by
    intro hq q odid' k ct
    unfold search_chunks
    cases he : env.embedFails
    · simp [generate_embedding, he, query_and_format, coll_query, hq]
    · simp [generate_embedding, he]
  refine ⟨?_, fun hq => hsearch hq query odid top_k collection_type, ?_, ?_, ?_⟩
  · intro ha hc
    unfold add_document_chunks
    simp only [hc, if_false]
    cases he : env.embedFails
    · simp [coll_add, ha, he]
    · simp [he]
  · intro hq
    unfold search_policy_aware
    rw [hsearch hq, hsearch hq]
  · intro hdel
    simp [delete_document_chunks, coll_delete, hdel]
  · intro hget
    unfold list_documents
    by_cases h1 : dto = none ∨ dto = some "contract" <;>
      by_cases h2 : dto = none ∨ dto = some "policy" <;>
        simp [coll_get, hget, h1, h2]

/-- Witness for C6: with every store operation failing, each facade call at
a concrete store returns its degraded value. -/
theorem c6_witness :
    ((add_document_chunks fail_env store_one_contract "doc-1" "n" ["a"] "contract"
        none none none).2 = false) ∧
    (search_chunks fail_env store_one_contract "q" none 5 "contract" = []) ∧
    (search_policy_aware fail_env store_one_contract "q" none 3 3 =
      { contract_chunks := [], policy_chunks := [], query := "q" }) ∧
    ((delete_document_chunks fail_env store_one_contract "doc-1" "contract").2 = false) ∧
    (list_documents fail_env store_one_contract none = []) := by
  have h := c6_store_errors_degrade fail_env store_one_contract "doc-1" "n" ["a"]
    "contract" none none none "q" none 5 3 3 "contract" none
  exact ⟨h.1 rfl (by decide), h.2.1 rfl, h.2.2.1 rfl, h.2.2.2.1 rfl, h.2.2.2.2 rfl⟩

/-- C3: adding an empty chunk list returns `True` and leaves zero chunks for
that `document_id` in the target collection (delete-then-no-insert). -/
theorem c3_empty_chunks_clears (env : Env) (st : VectorStore)
    (document_id document_name document_type : String)
    (clause_type risk_level policy_id : Option String)
    (hd : env.deleteFails = false) :
    (add_document_chunks env st document_id document_name [] document_type
        clause_type risk_level policy_id).2 = true ∧
    target_collection document_type
        (add_document_chunks env st document_id document_name [] document_type
          clause_type risk_level policy_id).1 =
      (target_collection document_type st).filter
        (fun r => r.metadata.document_id ≠ document_id) ∧
    (target_collection document_type
        (add_document_chunks env st document_id document_name [] document_type
          clause_type risk_level policy_id).1).filter
        (fun r => r.metadata.document_id = document_id) = [] := by
  unfold add_document_chunks
  rw [delete_document_chunks_ok env st document_id document_type hd]
  refine ⟨?_, ?_, ?_⟩ <;>
    simp [target_set_target, filter_ne_filter_eq_nil]

/-- Witness for C3 at a concrete previously-populated store. -/
theorem c3_witness :
    (add_document_chunks ok_env store_one_contract "doc-1" "Contract.pdf" [] "contract"
        none none none).2 = true ∧
    target_collection "contract"
        (add_document_chunks ok_env store_one_contract "doc-1" "Contract.pdf" [] "contract"
          none none none).1 =
      (target_collection "contract" store_one_contract).filter
        (fun r => r.metadata.document_id ≠ "doc-1") ∧
    (target_collection "contract"
        (add_document_chunks ok_env store_one_contract "doc-1" "Contract.pdf" [] "contract"
          none none none).1).filter
        (fun r => r.metadata.document_id = "doc-1") = [] :=
  c3_empty_chunks_clears ok_env store_one_contract "doc-1" "Contract.pdf" "contract"
    none none none rfl

/-- C9: the service-level `delete_document` deletes matching chunks from the
contract collection only; the policy collection is unchanged. -/
theorem c9_delete_contract_only (env : Env) (st : VectorStore) (document_id : String)
    (hd : env.deleteFails = false) :
    (service_delete_document env st document_id).2 = true ∧
    (service_delete_document env st document_id).1.contract_collection =
      st.contract_collection.filter (fun r => r.metadata.document_id ≠ document_id) ∧
    (service_delete_document env st document_id).1.policy_collection =
      st.policy_collection := by
  unfold service_delete_document
  rw [delete_document_chunks_ok env st document_id "contract" hd]
  exact ⟨rfl, rfl, rfl⟩

/-- Witness for C9 at a store holding document `D` in both collections. -/
theorem c9_witness :
    (service_delete_document ok_env store_both_collections "D").2 = true ∧
    (service_delete_document ok_env store_both_collections "D").1.contract_collection =
      store_both_collections.contract_collection.filter
        (fun r => r.metadata.document_id ≠ "D") ∧
    (service_delete_document ok_env store_both_collections "D").1.policy_collection =
      store_both_collections.policy_collection :=
  c9_delete_contract_only ok_env store_both_collections "D" rfl

theorem set_target_set_target (document_type : String) (st : VectorStore)
    (x y : List ChunkRec) :
    set_target_collection document_type (set_target_collection document_type st x) y =
      set_target_collection document_type st y := by
  unfold set_target_collection
  by_cases h : document_type = "contract" <;> simp [h]

/-- The successful path of `add_document_chunks` with a non-empty chunk
list: prior chunks for the document are deleted, the new batch is
upserted. -/
theorem add_document_chunks_ok (env : Env) (st : VectorStore)
    (document_id document_name : String) (chunks : List String)
    (document_type : String) (clause_type risk_level policy_id : Option String)
    (he : env.embedFails = false) (hd : env.deleteFails = false)
    (ha : env.addFails = false) (hc : chunks ≠ []) :
    add_document_chunks env st document_id document_name chunks document_type
        clause_type risk_level policy_id =
      (set_target_collection document_type st
        ((((target_collection document_type st).filter
              (fun r => r.metadata.document_id ≠ document_id)).filter
            (fun r => (new_records env document_id document_name chunks document_type
                clause_type risk_level policy_id).all (fun n => n.id ≠ r.id)))
          ++ new_records env document_id document_name chunks document_type
              clause_type risk_level policy_id), true) := by
  unfold add_document_chunks
  rw [delete_document_chunks_ok env st document_id document_type hd]
  simp only [hc, if_false, he, Bool.false_eq_true, coll_add, ha, target_set_target,
    set_target_set_target, if_neg (show ¬chunks = [] from hc)]

/-- C2: after a successful `add_document_chunks` call, the target collection
contains exactly the new batch for that `document_id`; no previously stored
chunk for that id survives. -/
theorem c2_add_replaces_prior_chunks (env : Env) (st : VectorStore)
    (document_id document_name : String) (chunks : List String)
    (document_type : String) (clause_type risk_level policy_id : Option String)
    (he : env.embedFails = false) (hd : env.deleteFails = false)
    (ha : env.addFails = false) :
    (add_document_chunks env st document_id document_name chunks document_type
        clause_type risk_level policy_id).2 = true ∧
    (target_collection document_type
        (add_document_chunks env st document_id document_name chunks document_type
          clause_type risk_level policy_id).1).filter
        (fun r => r.metadata.document_id = document_id) =
      new_records env document_id document_name chunks document_type
        clause_type risk_level policy_id ∧
    (∀ r ∈ target_collection document_type
        (add_document_chunks env st document_id document_name chunks document_type
          clause_type risk_level policy_id).1,
      r.metadata.document_id = document_id →
        r ∈ new_records env document_id document_name chunks document_type
          clause_type risk_level policy_id) := by
  by_cases hc : chunks = []
  · subst hc
    obtain ⟨h1, h2, h3⟩ := c3_empty_chunks_clears env st document_id document_name
      document_type clause_type risk_level policy_id hd
    refine ⟨h1, ?_, ?_⟩
    · rw [h3]; rfl
    · intro r hr hrid
      rw [h2] at hr
      rcases List.mem_filter.mp hr with ⟨-, hne⟩
      exact absurd hrid (by simpa using hne)
  · rw [add_document_chunks_ok env st document_id document_name chunks document_type
      clause_type risk_level policy_id he hd ha hc]
    simp only [target_set_target, List.filter_append]
    have hA : (((target_collection document_type st).filter
          (fun r => r.metadata.document_id ≠ document_id)).filter
        (fun r => (new_records env document_id document_name chunks document_type
            clause_type risk_level policy_id).all (fun n => n.id ≠ r.id))).filter
        (fun r => r.metadata.document_id = document_id) = [] := by
      rw [List.filter_eq_nil_iff]
      intro a ha'
      rcases List.mem_filter.mp ha' with ⟨hmem, -⟩
      rcases List.mem_filter.mp hmem with ⟨-, hne⟩
      simpa using hne
    have hN : (new_records env document_id document_name chunks document_type
        clause_type risk_level policy_id).filter
        (fun r => r.metadata.document_id = document_id) =
      new_records env document_id document_name chunks document_type
        clause_type risk_level policy_id := by
      rw [List.filter_eq_self]
      intro a hmem
      simpa using mem_new_records_docid env document_id document_name chunks
        document_type clause_type risk_level policy_id a hmem
    refine ⟨trivial, by rw [hA, hN, List.nil_append], ?_⟩
    intro r hr hrid
    rcases List.mem_append.mp hr with hrA | hrN
    · rcases List.mem_filter.mp hrA with ⟨hmem, -⟩
      rcases List.mem_filter.mp hmem with ⟨-, hne⟩
      exact absurd hrid (by simpa using hne)
    · exact hrN

/-- Witness for C2: re-adding `doc-1` with a fresh two-chunk batch on a
store already holding a chunk for `doc-1`. -/
theorem c2_witness :
    (add_document_chunks ok_env store_one_contract "doc-1" "Contract.pdf" ["x", "y"]
        "contract" none none none).2 = true ∧
    (target_collection "contract"
        (add_document_chunks ok_env store_one_contract "doc-1" "Contract.pdf" ["x", "y"]
          "contract" none none none).1).filter
        (fun r => r.metadata.document_id = "doc-1") =
      new_records ok_env "doc-1" "Contract.pdf" ["x", "y"] "contract" none none none ∧
    (∀ r ∈ target_collection "contract"
        (add_document_chunks ok_env store_one_contract "doc-1" "Contract.pdf" ["x", "y"]
          "contract" none none none).1,
      r.metadata.document_id = "doc-1" →
        r ∈ new_records ok_env "doc-1" "Contract.pdf" ["x", "y"] "contract" none none none) :=
  c2_add_replaces_prior_chunks ok_env store_one_contract "doc-1" "Contract.pdf"
    ["x", "y"] "contract" none none none rfl rfl rfl

theorem new_records_length (env : Env) (document_id document_name : String)
    (chunks : List String) (document_type : String)
    (clause_type risk_level policy_id : Option String) :
    (new_records env document_id document_name chunks document_type
      clause_type risk_level policy_id).length = chunks.length := by
  unfold new_records
  simp [List.enum_eq_enumFrom]

theorem new_records_get (env : Env) (document_id document_name : String)
    (chunks : List String) (document_type : String)
    (clause_type risk_level policy_id : Option String) (i : Nat)
    (h : i < (new_records env document_id document_name chunks document_type
      clause_type risk_level policy_id).length) (hi : i < chunks.length) :
    (new_records env document_id document_name chunks document_type
        clause_type risk_level policy_id).get ⟨i, h⟩ =
      mk_chunk_rec env document_id document_name document_type
        clause_type risk_level policy_id i (chunks.get ⟨i, hi⟩) := by
  unfold new_records
  simp [List.enum_eq_enumFrom, List.getElem_enumFrom]

/-- C7: the `i`-th chunk is stored with id `{document_id}_chunk_{i}`,
`chunk_index = i`, `chunk_length` the chunk text's length, `section_label =
"chunk_{i+1}"`; for policy documents the metadata additionally carries
`clause_type`, `risk_level` and `policy_id`, defaulting to `"general"`,
`"medium"` and the `document_id` when the argument is absent. -/
theorem c7_chunk_record_shape (env : Env) (st : VectorStore)
    (document_id document_name : String) (chunks : List String)
    (document_type : String) (clause_type risk_level policy_id : Option String)
    (i : Nat) (he : env.embedFails = false) (hd : env.deleteFails = false)
    (ha : env.addFails = false) (hi : i < chunks.length) :
    (new_records env document_id document_name chunks document_type
        clause_type risk_level policy_id).length = chunks.length ∧
    (∀ h : i < (new_records env document_id document_name chunks document_type
        clause_type risk_level policy_id).length,
      (new_records env document_id document_name chunks document_type
          clause_type risk_level policy_id).get ⟨i, h⟩ =
        mk_chunk_rec env document_id document_name document_type
          clause_type risk_level policy_id i (chunks.get ⟨i, hi⟩) ∧
      (new_records env document_id document_name chunks document_type
          clause_type risk_level policy_id).get ⟨i, h⟩ ∈
        target_collection document_type
          (add_document_chunks env st document_id document_name chunks document_type
            clause_type risk_level policy_id).1) ∧
    (∀ c : String,
      (mk_chunk_rec env document_id document_name document_type
          clause_type risk_level policy_id i c).id =
        document_id ++ "_chunk_" ++ toString i ∧
      (mk_chunk_rec env document_id document_name document_type
          clause_type risk_level policy_id i c).metadata.chunk_index = i ∧
      (mk_chunk_rec env document_id document_name document_type
          clause_type risk_level policy_id i c).metadata.chunk_length = c.length ∧
      (mk_chunk_rec env document_id document_name document_type
          clause_type risk_level policy_id i c).metadata.section_label =
        "chunk_" ++ toString (i + 1) ∧
      (document_type = "policy" →
        (mk_chunk_rec env document_id document_name document_type
            clause_type risk_level policy_id i c).metadata.clause_type =
          some (or_default clause_type "general") ∧
        (mk_chunk_rec env document_id document_name document_type
            clause_type risk_level policy_id i c).metadata.risk_level =
          some (or_default risk_level "medium") ∧
        (mk_chunk_rec env document_id document_name document_type
            clause_type risk_level policy_id i c).metadata.policy_id =
          some (or_default policy_id document_id)) ∧
      (document_type = "policy" → clause_type = none →
        (mk_chunk_rec env document_id document_name document_type
            clause_type risk_level policy_id i c).metadata.clause_type = some "general") ∧
      (document_type = "policy" → risk_level = none →
        (mk_chunk_rec env document_id document_name document_type
            clause_type risk_level policy_id i c).metadata.risk_level = some "medium") ∧
      (document_type = "policy" → policy_id = none →
        (mk_chunk_rec env document_id document_name document_type
            clause_type risk_level policy_id i c).metadata.policy_id = some document_id)) := by
  have hc : chunks ≠ [] := List.ne_nil_of_length_pos (Nat.lt_of_le_of_lt (Nat.zero_le i) hi)
  refine ⟨new_records_length env document_id document_name chunks document_type
    clause_type risk_level policy_id, ?_, ?_⟩
  · intro h
    refine ⟨new_records_get env document_id document_name chunks document_type
      clause_type risk_level policy_id i h hi, ?_⟩
    rw [add_document_chunks_ok env st document_id document_name chunks document_type
      clause_type risk_level policy_id he hd ha hc, target_set_target]
    exact List.mem_append_right _ (List.get_mem _ _ _)
  · intro c
    refine ⟨rfl, rfl, rfl, rfl, ?_, ?_, ?_, ?_⟩ <;> intro hp
    · subst hp
      exact ⟨by simp [mk_chunk_rec, mk_chunk_metadata],
        by simp [mk_chunk_rec, mk_chunk_metadata],
        by simp [mk_chunk_rec, mk_chunk_metadata]⟩
    all_goals intro hnone; subst hp; subst hnone; simp [mk_chunk_rec, mk_chunk_metadata, or_default]

/-- Witness for C7 at a concrete policy add with absent optional
arguments. -/
theorem c7_witness :
    (new_records ok_env "P" "Policy.pdf" ["alpha", "beta"] "policy" none none none).length = 2 ∧
    (∀ h : 1 < (new_records ok_env "P" "Policy.pdf" ["alpha", "beta"] "policy"
        none none none).length,
      (new_records ok_env "P" "Policy.pdf" ["alpha", "beta"] "policy"
          none none none).get ⟨1, h⟩ =
        mk_chunk_rec ok_env "P" "Policy.pdf" "policy" none none none 1
          ((["alpha", "beta"] : List String).get ⟨1, by decide⟩) ∧
      (new_records ok_env "P" "Policy.pdf" ["alpha", "beta"] "policy"
          none none none).get ⟨1, h⟩ ∈
        target_collection "policy"
          (add_document_chunks ok_env initial_vector_store "P" "Policy.pdf"
            ["alpha", "beta"] "policy" none none none).1) ∧
    (∀ c : String,
      (mk_chunk_rec ok_env "P" "Policy.pdf" "policy" none none none 1 c).id =
        "P" ++ "_chunk_" ++ toString 1 ∧
      (mk_chunk_rec ok_env "P" "Policy.pdf" "policy" none none none 1 c).metadata.chunk_index = 1 ∧
      (mk_chunk_rec ok_env "P" "Policy.pdf" "policy" none none none 1 c).metadata.chunk_length =
        c.length ∧
      (mk_chunk_rec ok_env "P" "Policy.pdf" "policy" none none none 1 c).metadata.section_label =
        "chunk_" ++ toString (1 + 1) ∧
      ("policy" = "policy" →
        (mk_chunk_rec ok_env "P" "Policy.pdf" "policy" none none none 1 c).metadata.clause_type =
          some (or_default none "general") ∧
        (mk_chunk_rec ok_env "P" "Policy.pdf" "policy" none none none 1 c).metadata.risk_level =
          some (or_default none "medium") ∧
        (mk_chunk_rec ok_env "P" "Policy.pdf" "policy" none none none 1 c).metadata.policy_id =
          some (or_default none "P")) ∧
      ("policy" = "policy" → (none : Option String) = none →
        (mk_chunk_rec ok_env "P" "Policy.pdf" "policy" none none none 1 c).metadata.clause_type =
          some "general") ∧
      ("policy" = "policy" → (none : Option String) = none →
        (mk_chunk_rec ok_env "P" "Policy.pdf" "policy" none none none 1 c).metadata.risk_level =
          some "medium") ∧
      ("policy" = "policy" → (none : Option String) = none →
        (mk_chunk_rec ok_env "P" "Policy.pdf" "policy" none none none 1 c).metadata.policy_id =
          some "P")) :=
  c7_chunk_record_shape ok_env initial_vector_store "P" "Policy.pdf" ["alpha", "beta"]
    "policy" none none none 1 rfl rfl rfl (by decide)

theorem set_target_collection_ne_contract (document_type : String) (st : VectorStore)
    (recs : List ChunkRec) (h : document_type ≠ "contract") :
    (set_target_collection document_type st recs).contract_collection =
        st.contract_collection ∧
    (set_target_collection document_type st recs).policy_collection = recs := by
  unfold set_target_collection
  simp [h]

/-- C10: collection routing tests only for the exact string `"contract"`:
any other `document_type` stores into the policy collection and any other
`collection_type` searches the policy collection, while the policy-specific
metadata is attached only when `document_type` is exactly `"policy"`. -/
theorem c10_routing_exact_contract (env : Env) (st : VectorStore)
    (document_id document_name : String) (chunks : List String)
    (document_type : String) (clause_type risk_level policy_id : Option String)
    (query : String) (odid : Option String) (top_k : Nat) (collection_type : String)
    (he : env.embedFails = false) (hd : env.deleteFails = false)
    (ha : env.addFails = false) :
    (document_type ≠ "contract" →
      (add_document_chunks env st document_id document_name chunks document_type
          clause_type risk_level policy_id).1.contract_collection =
        st.contract_collection ∧
      ∀ r ∈ new_records env document_id document_name chunks document_type
          clause_type risk_level policy_id,
        r ∈ (add_document_chunks env st document_id document_name chunks document_type
          clause_type risk_level policy_id).1.policy_collection) ∧
    (document_type ≠ "policy" →
      ∀ r ∈ new_records env document_id document_name chunks document_type
          clause_type risk_level policy_id,
        r.metadata.clause_type = none ∧ r.metadata.risk_level = none ∧
          r.metadata.policy_id = none) ∧
    (collection_type ≠ "contract" →
      search_chunks env st query odid top_k collection_type =
        query_and_format env st.policy_collection (env.embed query)
          (where_of odid) top_k collection_type) := by
  refine ⟨?_, ?_, ?_⟩
  · intro hdt
    by_cases hc : chunks = []
    · subst hc
      unfold add_document_chunks
      rw [delete_document_chunks_ok env st document_id document_type hd]
      simp only [if_pos (show ([] : List String) = [] from rfl)]
      exact ⟨(set_target_collection_ne_contract document_type st _ hdt).1,
        by intro r hr; cases hr⟩
    · rw [add_document_chunks_ok env st document_id document_name chunks document_type
        clause_type risk_level policy_id he hd ha hc]
      refine ⟨(set_target_collection_ne_contract document_type st _ hdt).1, ?_⟩
      intro r hr
      rw [(set_target_collection_ne_contract document_type st _ hdt).2]
      exact List.mem_append_right _ hr
  · intro hdt r hr
    unfold new_records at hr
    obtain ⟨p, -, rfl⟩ := List.mem_map.mp hr
    exact ⟨by simp [mk_chunk_rec, mk_chunk_metadata, hdt],
      by simp [mk_chunk_rec, mk_chunk_metadata, hdt],
      by simp [mk_chunk_rec, mk_chunk_metadata, hdt]⟩
  · intro hct
    simp [search_chunks, generate_embedding, he, hct]

/-- Witness for C10 with `document_type = collection_type = "note"`. -/
theorem c10_witness :
    ((add_document_chunks ok_env store_both_collections "N" "Note.txt" ["n1"] "note"
        none none none).1.contract_collection =
      store_both_collections.contract_collection ∧
      ∀ r ∈ new_records ok_env "N" "Note.txt" ["n1"] "note" none none none,
        r ∈ (add_document_chunks ok_env store_both_collections "N" "Note.txt" ["n1"] "note"
          none none none).1.policy_collection) ∧
    (∀ r ∈ new_records ok_env "N" "Note.txt" ["n1"] "note" none none none,
      r.metadata.clause_type = none ∧ r.metadata.risk_level = none ∧
        r.metadata.policy_id = none) ∧
    (search_chunks ok_env store_both_collections "q" none 2 "note" =
      query_and_format ok_env store_both_collections.policy_collection
        (ok_env.embed "q") (where_of none) 2 "note") := by
  have h := c10_routing_exact_contract ok_env store_both_collections "N" "Note.txt"
    ["n1"] "note" none none none "q" none 2 "note" rfl rfl rfl
  exact ⟨h.1 (by decide), h.2.1 (by decide), h.2.2 (by decide)⟩

theorem length_insert_ranked (p : ChunkRec × ℤ) (l : List (ChunkRec × ℤ)) :
    (insert_ranked p l).length = l.length + 1 := by
  induction l with
  | nil => rfl
  | cons q rest ih =>
      unfold insert_ranked
      split
      · rfl
      · simp [ih]

theorem mem_insert_ranked (q p : ChunkRec × ℤ) (l : List (ChunkRec × ℤ)) :
    q ∈ insert_ranked p l ↔ q = p ∨ q ∈ l := by
  induction l with
  | nil => simp [insert_ranked]
  | cons x rest ih =>
      unfold insert_ranked
      split
      · simp
      · simp only [List.mem_cons, ih]
        tauto

theorem length_rank_by_distance (l : List (ChunkRec × ℤ)) :
    (rank_by_distance l).length = l.length := by
  induction l with
  | nil => rfl
  | cons p rest ih => simp [rank_by_distance, length_insert_ranked, ih]

theorem mem_rank_by_distance (q : ChunkRec × ℤ) (l : List (ChunkRec × ℤ)) :
    q ∈ rank_by_distance l ↔ q ∈ l := by
  induction l with
  | nil => simp [rank_by_distance]
  | cons p rest ih => simp [rank_by_distance, mem_insert_ranked, ih]

theorem search_chunks_length_le (env : Env) (st : VectorStore) (query : String)
    (document_id : Option String) (top_k : Nat) (collection_type : String) :
    (search_chunks env st query document_id top_k collection_type).length ≤ top_k := by
  unfold search_chunks
  cases he : env.embedFails
  · simp only [generate_embedding, he, Bool.false_eq_true, if_false]
    unfold query_and_format
    cases hq : env.queryFails
    · simp only [coll_query, hq, Bool.false_eq_true, if_false]
      rw [List.length_map]
      exact List.length_take_le _ _
    · simp [coll_query, hq]
  · simp [generate_embedding, he]

theorem search_chunks_sound (env : Env) (st : VectorStore) (query : String)
    (document_id : Option String) (top_k : Nat) (collection_type : String)
    (r : SearchResult)
    (hr : r ∈ search_chunks env st query document_id top_k collection_type) :
    ∃ rec ∈ (if collection_type = "contract" then st.contract_collection
              else st.policy_collection),
      r = format_result collection_type (rec, env.dist (env.embed query) rec.embedding) ∧
      ∀ d, document_id = some d → d ≠ "" → rec.metadata.document_id = d := by
  unfold search_chunks at hr
  cases he : env.embedFails
  · simp only [generate_embedding, he, Bool.false_eq_true, if_false] at hr
    unfold query_and_format at hr
    cases hq : env.queryFails
    · simp only [coll_query, hq, Bool.false_eq_true, if_false] at hr
      obtain ⟨p, hp, rfl⟩ := List.mem_map.mp hr
      have hp' := (mem_rank_by_distance p _).mp (List.mem_of_mem_take hp)
      obtain ⟨rec, hrec, rfl⟩ := List.mem_map.mp hp'
      cases hdid : document_id with
      | none =>
          rw [hdid] at hrec
          exact ⟨rec, hrec, rfl, by intro d hd; cases hd⟩
      | some d =>
          rw [hdid] at hrec
          by_cases hempty : d = ""
          · subst hempty
            simp only [where_of, if_pos rfl] at hrec
            exact ⟨rec, hrec, rfl, by
              intro d' hd' hne
              cases hd'
              exact absurd rfl hne⟩
          · simp only [where_of, if_neg hempty] at hrec
            rcases List.mem_filter.mp hrec with ⟨hmem, hdec⟩
            exact ⟨rec, hmem, rfl, by
              intro d' hd' _
              cases hd'
              simpa using hdec⟩
    · simp [coll_query, hq] at hr
  · simp [generate_embedding, he] at hr

/-- C4 counterexample: `search_policy_aware` is called with a given
(empty-string) `document_id`, yet the contract search is not filtered by
it — a chunk whose `document_id` is `"doc-1" ≠ ""` is returned, because
`search_chunks` treats a falsy `document_id` as absent. -/
theorem c4_counterexample :
    store_one_contract.contract_collection.map (fun r => r.metadata.document_id) =
      ["doc-1"] ∧
    (search_policy_aware ok_env store_one_contract "q" (some "") 5 5).contract_chunks.map
      (fun r => r.metadata.document_id) = ["doc-1"] ∧
    ("doc-1" : String) ≠ "" :=
  ⟨by decide, by decide, by decide⟩

/-- C4 (amended): `search_policy_aware` searches the contract collection
filtered by `document_id` when a non-empty one is given (an empty-string id
is treated as absent), and the policy collection with no filter, returning
at most `contract_top_k` contract chunks and at most `policy_top_k` policy
chunks side by side with the query. -/
theorem c4_amended_policy_aware_shape (env : Env) (st : VectorStore)
    (query : String) (document_id : Option String) (contract_top_k policy_top_k : Nat)
    (he : env.embedFails = false) (hq : env.queryFails = false) :
    (search_policy_aware env st query document_id contract_top_k policy_top_k).query =
      query ∧
    (search_policy_aware env st query document_id contract_top_k
      policy_top_k).contract_chunks.length ≤ contract_top_k ∧
    (search_policy_aware env st query document_id contract_top_k
      policy_top_k).policy_chunks.length ≤ policy_top_k ∧
    (∀ r ∈ (search_policy_aware env st query document_id contract_top_k
        policy_top_k).contract_chunks,
      ∃ rec ∈ st.contract_collection,
        r = format_result "contract" (rec, env.dist (env.embed query) rec.embedding)) ∧
    (∀ d, document_id = some d → d ≠ "" →
      ∀ r ∈ (search_policy_aware env st query document_id contract_top_k
          policy_top_k).contract_chunks,
        r.metadata.document_id = d) ∧
    (∀ r ∈ (search_policy_aware env st query document_id contract_top_k
        policy_top_k).policy_chunks,
      ∃ rec ∈ st.policy_collection,
        r = format_result "policy" (rec, env.dist (env.embed query) rec.embedding)) := by
  refine ⟨rfl, search_chunks_length_le env st query document_id contract_top_k "contract",
    search_chunks_length_le env st query none policy_top_k "policy", ?_, ?_, ?_⟩
  · intro r hr
    obtain ⟨rec, hrec, hfmt, -⟩ := search_chunks_sound env st query document_id
      contract_top_k "contract" r hr
    exact ⟨rec, by simpa using hrec, hfmt⟩
  · intro d hd hne r hr
    obtain ⟨rec, -, hfmt, hfil⟩ := search_chunks_sound env st query document_id
      contract_top_k "contract" r hr
    rw [hfmt]
    exact hfil d hd hne
  · intro r hr
    obtain ⟨rec, hrec, hfmt, -⟩ := search_chunks_sound env st query none
      policy_top_k "policy" r hr
    refine ⟨rec, ?_, hfmt⟩
    simpa using hrec

/-- Witness for the amended C4 at a concrete store and non-empty
document id. -/
theorem c4_witness :
    (search_policy_aware ok_env store_both_collections "q" (some "D") 2 3).query = "q" ∧
    (search_policy_aware ok_env store_both_collections "q" (some "D") 2
      3).contract_chunks.length ≤ 2 ∧
    (search_policy_aware ok_env store_both_collections "q" (some "D") 2
      3).policy_chunks.length ≤ 3 ∧
    (∀ r ∈ (search_policy_aware ok_env store_both_collections "q" (some "D") 2
        3).contract_chunks,
      ∃ rec ∈ store_both_collections.contract_collection,
        r = format_result "contract" (rec, ok_env.dist (ok_env.embed "q") rec.embedding)) ∧
    (∀ d, (some "D" : Option String) = some d → d ≠ "" →
      ∀ r ∈ (search_policy_aware ok_env store_both_collections "q" (some "D") 2
          3).contract_chunks,
        r.metadata.document_id = d) ∧
    (∀ r ∈ (search_policy_aware ok_env store_both_collections "q" (some "D") 2
        3).policy_chunks,
      ∃ rec ∈ store_both_collections.policy_collection,
        r = format_result "policy" (rec, ok_env.dist (ok_env.embed "q") rec.embedding)) :=
  c4_amended_policy_aware_shape ok_env store_both_collections "q" (some "D") 2 3 rfl rfl

/-! ### Grouping: characterisation of `_group_documents_by_id` -/

/-- The list of document ids in order of first occurrence (the iteration
order of the Python dict built by the grouping loop). -/
def first_occurrences : List String → List String
  | [] => []
  | x :: rest => x :: (first_occurrences rest).filter (fun y => y ≠ x)

theorem mem_first_occurrences (x : String) (l : List String) :
    x ∈ first_occurrences l ↔ x ∈ l := by
  induction l with
  | nil => simp [first_occurrences]
  | cons a rest ih =>
      simp only [first_occurrences, List.mem_cons, List.mem_filter, ih,
        decide_eq_true_eq]
      by_cases h : x = a
      · simp [h]
      · simp [h]

theorem nodup_first_occurrences (l : List String) :
    (first_occurrences l).Nodup := by
  induction l with
  | nil => exact List.nodup_nil
  | cons a rest ih =>
      refine List.nodup_cons.mpr ⟨?_, ih.filter _⟩
      intro hmem
      rcases List.mem_filter.mp hmem with ⟨-, hne⟩
      simp at hne

theorem find?_filter_of_imp {α : Type} (l : List α) (p q : α → Bool)
    (h : ∀ a, p a = true → q a = true) :
    (l.filter q).find? p = l.find? p := by
  induction l with
  | nil => rfl
  | cons a rest ih =>
      cases hq : q a
      · cases hp : p a
        · rw [List.filter_cons_of_neg (by simp [hq]), ih,
            List.find?_cons_of_neg _ (by simp [hp])]
        · exact absurd (h a hp) (by simp [hq])
      · cases hp : p a
        · rw [List.filter_cons_of_pos (by simp [hq]),
            List.find?_cons_of_neg _ (by simp [hp]),
            List.find?_cons_of_neg _ (by simp [hp]), ih]
        · rw [List.filter_cons_of_pos (by simp [hq]),
            List.find?_cons_of_pos _ (by simp [hp]),
            List.find?_cons_of_pos _ (by simp [hp])]

theorem filter_filter_of_imp {α : Type} (l : List α) (p q : α → Bool)
    (h : ∀ a, p a = true → q a = true) :
    (l.filter q).filter p = l.filter p := by
  rw [List.filter_filter]
  apply List.filter_congr
  intro a _
  cases hp : p a
  · simp [hp]
  · simp [hp, h a hp]

theorem first_occurrences_filter (l : List String) (p : String → Bool) :
    first_occurrences (l.filter p) = (first_occurrences l).filter p := by
  induction l with
  | nil => rfl
  | cons a rest ih =>
      cases hp : p a
      · have himp : ∀ y : String, p y = true → decide (y ≠ a) = true := by
          intro y hy
          simp only [decide_eq_true_eq]
          intro hcon
          rw [hcon] at hy
          rw [hy] at hp
          cases hp
        calc first_occurrences ((a :: rest).filter p)
            = first_occurrences (rest.filter p) := by
              rw [List.filter_cons_of_neg (by simp [hp])]
          _ = (first_occurrences rest).filter p := ih
          _ = ((first_occurrences rest).filter (fun y => y ≠ a)).filter p :=
              (filter_filter_of_imp _ _ _ himp).symm
          _ = (first_occurrences (a :: rest)).filter p := by
              rw [first_occurrences, List.filter_cons_of_neg (by simp [hp])]
      · calc first_occurrences ((a :: rest).filter p)
            = a :: (first_occurrences (rest.filter p)).filter (fun y => y ≠ a) := by
              rw [List.filter_cons_of_pos (by simp [hp]), first_occurrences]
          _ = a :: ((first_occurrences rest).filter p).filter (fun y => y ≠ a) := by
              rw [ih]
          _ = a :: ((first_occurrences rest).filter (fun y => y ≠ a)).filter p := by
              rw [List.filter_filter, List.filter_filter]
              exact congrArg (a :: ·) (List.filter_congr (fun y _ => Bool.and_comm _ _))
          _ = (first_occurrences (a :: rest)).filter p := by
              rw [first_occurrences, List.filter_cons_of_pos (by simp [hp])]

/-- Reference form of the grouping result: one summary per first-occurring
document id, seeded from the first chunk with that id and counting every
chunk with that id. -/
def group_spec (t : String) (ms : List ChunkMetadata) : List DocumentSummary :=
  (first_occurrences (ms.map (fun m => m.document_id))).filterMap (fun x =>
    (ms.find? (fun m => m.document_id = x)).map (fun m =>
      { group_seed t m with
          chunk_count := (ms.filter (fun r => r.document_id = x)).length }))

theorem group_spec_nil (t : String) : group_spec t [] = [] := rfl

theorem group_spec_cons (t : String) (m : ChunkMetadata) (ms : List ChunkMetadata) :
    group_spec t (m :: ms) =
      { group_seed t m with
          chunk_count :=
            (ms.filter (fun r => r.document_id = m.document_id)).length + 1 }
        :: group_spec t (ms.filter (fun r => r.document_id ≠ m.document_id)) := by
  unfold group_spec
  rw [List.map_cons]
  rw [show first_occurrences (m.document_id :: ms.map (fun m' => m'.document_id)) =
      m.document_id :: (first_occurrences (ms.map (fun m' => m'.document_id))).filter
        (fun y => y ≠ m.document_id) from rfl]
  have hfind : (m :: ms).find? (fun m' => m'.document_id = m.document_id) = some m :=
    List.find?_cons_of_pos _ (by simp)
  have hcnt : (m :: ms).filter (fun r => r.document_id = m.document_id) =
      m :: ms.filter (fun r => r.document_id = m.document_id) :=
    List.filter_cons_of_pos (by simp)
  rw [List.filterMap_cons]
  rw [hfind, hcnt]
  simp only [Option.map_some', List.length_cons]
  congr 1
  have hmapfil : (ms.filter (fun r => r.document_id ≠ m.document_id)).map
      (fun m' => m'.document_id) =
      (ms.map (fun m' => m'.document_id)).filter (fun y => y ≠ m.document_id) := by
    rw [List.filter_map]
    rfl
  rw [hmapfil, first_occurrences_filter]
  apply List.filterMap_congr
  intro x hx
  rcases List.mem_filter.mp hx with ⟨-, hxne⟩
  have hxne' : x ≠ m.document_id := by simpa using hxne
  have h1 : (m :: ms).find? (fun m' => m'.document_id = x) =
      ms.find? (fun m' => m'.document_id = x) :=
    List.find?_cons_of_neg _ (by
      simp only [decide_eq_true_eq]
      exact fun h => hxne' h.symm)
  have h2 : (ms.filter (fun r => r.document_id ≠ m.document_id)).find?
      (fun m' => m'.document_id = x) = ms.find? (fun m' => m'.document_id = x) := by
    apply find?_filter_of_imp
    intro a ha
    simp only [decide_eq_true_eq] at ha ⊢
    rw [ha]
    exact hxne'
  have h3 : (m :: ms).filter (fun r => r.document_id = x) =
      ms.filter (fun r => r.document_id = x) :=
    List.filter_cons_of_neg (by
      simp only [decide_eq_true_eq]
      exact fun h => hxne' h.symm)
  have h4 : ((ms.filter (fun r => r.document_id ≠ m.document_id)).filter
      (fun r => r.document_id = x)) = ms.filter (fun r => r.document_id = x) := by
    apply filter_filter_of_imp
    intro a ha
    simp only [decide_eq_true_eq] at ha ⊢
    rw [ha]
    exact hxne'
  rw [h1, h2, h3, h4]

theorem group_step_seen (t : String) (acc : List DocumentSummary) (m : ChunkMetadata)
    (h : acc.any (fun d => d.document_id = m.document_id) = true) :
    group_step t acc m = acc.map (fun d =>
      if d.document_id = m.document_id then { d with chunk_count := d.chunk_count + 1 }
      else d) := by
  simp only [group_step, h, if_true]

theorem group_step_new (t : String) (acc : List DocumentSummary) (m : ChunkMetadata)
    (h : acc.any (fun d => d.document_id = m.document_id) = false) :
    group_step t acc m = acc ++ [{ group_seed t m with chunk_count := 1 }] := by
  have hall : ∀ d ∈ acc, ¬(d.document_id = m.document_id) := by
    intro d hd
    simpa using List.any_eq_false.mp h d hd
  simp only [group_step, h, Bool.false_eq_true, if_false, List.map_append,
    List.map_cons, List.map_nil]
  congr 1
  · exact (List.map_congr_left
      (fun d hd => if_neg (hall d hd))).trans (List.map_id' acc)
  · have hc : (group_seed t m).document_id = m.document_id := rfl
    rw [if_pos hc]
    rfl

theorem any_docid_map (acc : List DocumentSummary) (f : DocumentSummary → DocumentSummary)
    (hf : ∀ d, (f d).document_id = d.document_id) (y : String) :
    (acc.map f).any (fun d => d.document_id = y) =
      acc.any (fun d => d.document_id = y) := by
  induction acc with
  | nil => rfl
  | cons d rest ih => simp [List.any_cons, hf, ih]

/-- Characterisation of the grouping loop: running it from an accumulator
bumps the accumulated counts and appends `group_spec` of the yet-unseen
ids. -/
theorem foldl_group_step (t : String) (ms : List ChunkMetadata) :
    ∀ acc : List DocumentSummary,
    List.foldl (group_step t) acc ms =
      acc.map (fun d => { d with chunk_count :=
          d.chunk_count + (ms.filter (fun r => r.document_id = d.document_id)).length })
      ++ group_spec t (ms.filter (fun m' =>
          !acc.any (fun d => d.document_id = m'.document_id))) := by
  induction ms with
  | nil =>
      intro acc
      simp only [List.foldl_nil, List.filter_nil, List.length_nil, Nat.add_zero,
        group_spec_nil, List.append_nil]
      exact ((List.map_congr_left (fun d _ => rfl)).trans (List.map_id' acc)).symm
  | cons m rest ih =>
      intro acc
      rw [List.foldl_cons]
      cases hany : acc.any (fun d => d.document_id = m.document_id)
      · -- first occurrence of this document id
        have hall : ∀ d ∈ acc, ¬(d.document_id = m.document_id) := by
          intro d hd
          simpa using List.any_eq_false.mp hany d hd
        rw [group_step_new t acc m hany, ih, List.map_append]
        rw [show (m :: rest).filter (fun m' =>
              !acc.any (fun d => d.document_id = m'.document_id)) =
            m :: rest.filter (fun m' =>
              !acc.any (fun d => d.document_id = m'.document_id)) from
          List.filter_cons_of_pos (by rw [hany]; rfl)]
        rw [group_spec_cons, List.append_assoc]
        congr 1
        · -- accumulator part: counts over `rest` and over `m :: rest` agree
          apply List.map_congr_left
          intro d hd
          rw [show (m :: rest).filter (fun r => r.document_id = d.document_id) =
              rest.filter (fun r => r.document_id = d.document_id) from
            List.filter_cons_of_neg (by
              simp only [decide_eq_true_eq]
              exact fun hc => hall d hd hc.symm)]
        · rw [List.map_cons, List.map_nil, List.singleton_append]
          congr 1
          · -- the freshly seeded summary
            show ({ group_seed t m with chunk_count :=
                1 + (rest.filter (fun r => r.document_id = m.document_id)).length } :
                  DocumentSummary) =
              { group_seed t m with chunk_count :=
                ((rest.filter (fun m' =>
                    !acc.any (fun d => d.document_id = m'.document_id))).filter
                  (fun r => r.document_id = m.document_id)).length + 1 }
            rw [filter_filter_of_imp _ _ _ (by
              intro a ha
              simp only [decide_eq_true_eq] at ha
              rw [ha, hany]
              rfl)]
            exact congrArg (fun n => { group_seed t m with chunk_count := n })
              (Nat.add_comm 1 _)
          · -- remaining, still unseen ids
            apply congrArg (group_spec t)
            rw [List.filter_filter]
            apply List.filter_congr
            intro a _
            by_cases h : a.document_id = m.document_id
            · simp [List.any_append, group_seed, h]
            · have hmn : ¬(m.document_id = a.document_id) := fun hc => h hc.symm
              simp [List.any_append, group_seed, h, hmn]
      · -- the id was already seen
        have hmap_any : ∀ y : String,
            ((acc.map (fun d =>
              if d.document_id = m.document_id
              then { d with chunk_count := d.chunk_count + 1 } else d)).any
              (fun d => d.document_id = y)) =
            acc.any (fun d => d.document_id = y) :=
          fun y => any_docid_map acc _ (fun d => by split <;> rfl) y
        rw [group_step_seen t acc m hany, ih, List.map_map]
        rw [List.filter_congr (fun a _ => by rw [hmap_any a.document_id])]
        rw [show (m :: rest).filter (fun m' =>
              !acc.any (fun d => d.document_id = m'.document_id)) =
            rest.filter (fun m' =>
              !acc.any (fun d => d.document_id = m'.document_id)) from
          List.filter_cons_of_neg (by rw [hany]; simp)]
        congr 1
        apply List.map_congr_left
        intro d hd
        by_cases h : d.document_id = m.document_id
        · show (fun d' : DocumentSummary => { d' with chunk_count := d'.chunk_count +
              (rest.filter (fun r : ChunkMetadata => r.document_id = d'.document_id)).length })
              (if d.document_id = m.document_id
                then { d with chunk_count := d.chunk_count + 1 } else d) =
            { d with chunk_count := d.chunk_count +
              ((m :: rest).filter (fun r => r.document_id = d.document_id)).length }
          rw [if_pos h]
          show ({ d with chunk_count := d.chunk_count + 1 +
              (rest.filter (fun r : ChunkMetadata => r.document_id = d.document_id)).length } :
                DocumentSummary) =
            { d with chunk_count := d.chunk_count +
              ((m :: rest).filter (fun r : ChunkMetadata => r.document_id = d.document_id)).length }
          rw [show (m :: rest).filter (fun r => r.document_id = d.document_id) =
              m :: rest.filter (fun r => r.document_id = d.document_id) from
            List.filter_cons_of_pos (by simp [h])]
          rw [List.length_cons]
          have hn : d.chunk_count + 1 +
              (rest.filter (fun r : ChunkMetadata => r.document_id = d.document_id)).length =
            d.chunk_count +
              ((rest.filter (fun r : ChunkMetadata => r.document_id = d.document_id)).length + 1) := by
            omega
          exact congrArg (fun n => { d with chunk_count := n }) hn
        · show (fun d' : DocumentSummary => { d' with chunk_count := d'.chunk_count +
              (rest.filter (fun r : ChunkMetadata => r.document_id = d'.document_id)).length })
              (if d.document_id = m.document_id
                then { d with chunk_count := d.chunk_count + 1 } else d) =
            { d with chunk_count := d.chunk_count +
              ((m :: rest).filter (fun r => r.document_id = d.document_id)).length }
          rw [if_neg h]
          show ({ d with chunk_count := d.chunk_count +
              (rest.filter (fun r : ChunkMetadata => r.document_id = d.document_id)).length } :
                DocumentSummary) =
            { d with chunk_count := d.chunk_count +
              ((m :: rest).filter (fun r : ChunkMetadata => r.document_id = d.document_id)).length }
          rw [show (m :: rest).filter (fun r => r.document_id = d.document_id) =
              rest.filter (fun r => r.document_id = d.document_id) from
            List.filter_cons_of_neg (by
              simp only [decide_eq_true_eq]
              exact fun hc => h hc.symm)]

theorem group_documents_by_id_nil (t : String) : group_documents_by_id [] t = [] := rfl

theorem group_documents_by_id_eq_spec (recs : List ChunkRec) (t : String) :
    group_documents_by_id recs t = group_spec t (recs.map (fun r => r.metadata)) := by
  unfold group_documents_by_id
  rw [foldl_group_step, List.map_nil, List.nil_append]
  rw [show (fun m' : ChunkMetadata =>
      !List.any [] (fun d : DocumentSummary => d.document_id = m'.document_id)) =
    (fun _ : ChunkMetadata => true) from rfl]
  rw [List.filter_true]

/-- The four structural properties of `group_spec`: distinct ids (one entry
per first-occurring id), id coverage, exact chunk counts, and all non-count
fields seeded from the first chunk with that id. -/
theorem group_spec_props (t : String) :
    ∀ (n : Nat) (ms : List ChunkMetadata), ms.length ≤ n →
    ((group_spec t ms).map (fun d => d.document_id)).Nodup ∧
    (∀ x, x ∈ (group_spec t ms).map (fun d => d.document_id) ↔
      x ∈ ms.map (fun m => m.document_id)) ∧
    (∀ d ∈ group_spec t ms,
      d.chunk_count = (ms.filter (fun r => r.document_id = d.document_id)).length) ∧
    (∀ d ∈ group_spec t ms,
      ∃ m, ms.find? (fun r => r.document_id = d.document_id) = some m ∧
        d = { group_seed t m with chunk_count := d.chunk_count }) := by
  intro n
  induction n with
  | zero =>
      intro ms hms
      have hnil : ms = [] := List.eq_nil_of_length_eq_zero (Nat.le_zero.mp hms)
      subst hnil
      exact ⟨List.nodup_nil, by simp [group_spec_nil], by simp [group_spec_nil],
        by simp [group_spec_nil]⟩
  | succ n ihn =>
      intro ms hms
      cases ms with
      | nil =>
          exact ⟨List.nodup_nil, by simp [group_spec_nil], by simp [group_spec_nil],
            by simp [group_spec_nil]⟩
      | cons m rest =>
          rw [group_spec_cons]
          have hlen : (rest.filter
              (fun r => r.document_id ≠ m.document_id)).length ≤ n :=
            le_trans (List.length_filter_le _ _) (Nat.le_of_succ_le_succ hms)
          obtain ⟨ih1, ih2, ih3, ih4⟩ := ihn _ hlen
          have hnotin : ∀ d, d ∈ group_spec t (rest.filter
              (fun r => r.document_id ≠ m.document_id)) →
              d.document_id ≠ m.document_id := by
            intro d hd
            have hx : d.document_id ∈ (rest.filter
                (fun r => r.document_id ≠ m.document_id)).map
                  (fun r => r.document_id) :=
              (ih2 d.document_id).mp (List.mem_map_of_mem _ hd)
            obtain ⟨r, hr, hrid⟩ := List.mem_map.mp hx
            rcases List.mem_filter.mp hr with ⟨-, hrne⟩
            rw [← hrid]
            simpa using hrne
          refine ⟨?_, ?_, ?_, ?_⟩
          · rw [List.map_cons]
            refine List.nodup_cons.mpr ⟨?_, ih1⟩
            intro hmem
            obtain ⟨d, hd, hdid⟩ := List.mem_map.mp hmem
            exact hnotin d hd hdid
          · intro x
            rw [List.map_cons, List.map_cons, List.mem_cons, List.mem_cons, ih2]
            show x = m.document_id ∨ _ ↔ x = m.document_id ∨ _
            by_cases hx : x = m.document_id
            · simp [hx]
            · simp only [hx, false_or]
              constructor
              · intro hmem
                obtain ⟨r, hr, hrid⟩ := List.mem_map.mp hmem
                exact hrid ▸ List.mem_map_of_mem _ (List.mem_filter.mp hr).1
              · intro hmem
                obtain ⟨r, hr, hrid⟩ := List.mem_map.mp hmem
                refine List.mem_map.mpr ⟨r, List.mem_filter.mpr ⟨hr, ?_⟩, hrid⟩
                simp only [decide_eq_true_eq]
                rw [hrid]
                exact hx
          · intro d hd
            rcases List.mem_cons.mp hd with rfl | hd'
            · show (rest.filter (fun r : ChunkMetadata =>
                  r.document_id = m.document_id)).length + 1 =
                ((m :: rest).filter (fun r : ChunkMetadata =>
                  r.document_id = m.document_id)).length
              rw [List.filter_cons_of_pos (by simp [group_seed]), List.length_cons]
            · have hne := hnotin d hd'
              rw [ih3 d hd']
              rw [filter_filter_of_imp _ _ _ (by
                intro a ha
                simp only [decide_eq_true_eq] at ha ⊢
                rw [ha]
                exact hne)]
              rw [List.filter_cons_of_neg (by
                simp only [decide_eq_true_eq]
                exact fun hc => hne hc.symm)]
          · intro d hd
            rcases List.mem_cons.mp hd with rfl | hd'
            · refine ⟨m, ?_, rfl⟩
              exact List.find?_cons_of_pos _ (by simp [group_seed])
            · obtain ⟨m', hm', hdm'⟩ := ih4 d hd'
              have hne := hnotin d hd'
              refine ⟨m', ?_, hdm'⟩
              rw [List.find?_cons_of_neg _ (by
                simp only [decide_eq_true_eq]
                exact fun hc => hne hc.symm)]
              rw [← find?_filter_of_imp rest
                (fun r => r.document_id = d.document_id)
                (fun r => r.document_id ≠ m.document_id) (by
                  intro a ha
                  simp only [decide_eq_true_eq] at ha ⊢
                  rw [ha]
                  exact hne)]
              exact hm'

theorem list_documents_none_ok (env : Env) (st : VectorStore)
    (hget : env.getFails = false) :
    list_documents env st none =
      group_documents_by_id st.contract_collection "contract" ++
        group_documents_by_id st.policy_collection "policy" := by
  unfold list_documents
  simp only [coll_get, hget, Bool.false_eq_true, if_false]
  by_cases hc : st.contract_collection = [] <;>
    by_cases hp : st.policy_collection = [] <;>
      simp [hc, hp, group_documents_by_id_nil]

/-- C8 counterexample: document `D` stored in both collections yields TWO
summary entries from `list_documents`, not one per distinct `document_id`
across both collections (the code groups per collection and
concatenates). -/
theorem c8_counterexample :
    store_both_collections.contract_collection.map
      (fun r => r.metadata.document_id) = ["D"] ∧
    store_both_collections.policy_collection.map
      (fun r => r.metadata.document_id) = ["D", "D"] ∧
    ((list_documents ok_env store_both_collections none).filter
      (fun d => d.document_id = "D")).length = 2 :=
  ⟨by decide, by decide, by decide⟩

/-- C8 (amended): `list_documents` returns the concatenation of the
per-collection groupings; within each collection there is one summary entry
per distinct `document_id`, with `chunk_count` the number of chunks stored
for that id in that collection, and all other summary fields (including the
policy fields `clause_type`/`risk_level`/`policy_id`) seeded from the
first-seen chunk for that id only. -/
theorem c8_amended_list_documents (env : Env) (st : VectorStore)
    (hget : env.getFails = false) :
    list_documents env st none =
      group_documents_by_id st.contract_collection "contract" ++
        group_documents_by_id st.policy_collection "policy" ∧
    ∀ (recs : List ChunkRec) (t : String),
      ((group_documents_by_id recs t).map (fun d => d.document_id)).Nodup ∧
      (∀ x, x ∈ (group_documents_by_id recs t).map (fun d => d.document_id) ↔
        x ∈ recs.map (fun r => r.metadata.document_id)) ∧
      (∀ d ∈ group_documents_by_id recs t,
        d.chunk_count = (recs.filter
          (fun r => r.metadata.document_id = d.document_id)).length) ∧
      (∀ d ∈ group_documents_by_id recs t,
        ∃ m, (recs.map (fun r => r.metadata)).find?
            (fun r => r.document_id = d.document_id) = some m ∧
          d = { group_seed t m with chunk_count := d.chunk_count }) := by
  refine ⟨list_documents_none_ok env st hget, ?_⟩
  intro recs t
  obtain ⟨h1, h2, h3, h4⟩ := group_spec_props t
    (recs.map (fun r => r.metadata)).length (recs.map (fun r => r.metadata)) le_rfl
  rw [group_documents_by_id_eq_spec]
  refine ⟨h1, ?_, ?_, h4⟩
  · intro x
    rw [h2 x, List.map_map]
    exact Iff.rfl
  · intro d hd
    rw [h3 d hd, List.filter_map, List.length_map]
    rfl

/-- Witness for the amended C8 at a store holding `D` in both
collections. -/
theorem c8_witness :
    (list_documents ok_env store_both_collections none =
      group_documents_by_id store_both_collections.contract_collection "contract" ++
        group_documents_by_id store_both_collections.policy_collection "policy") ∧
    ((group_documents_by_id store_both_collections.policy_collection "policy").map
      (fun d => d.document_id)).Nodup ∧
    (∀ x, x ∈ (group_documents_by_id store_both_collections.policy_collection
        "policy").map (fun d => d.document_id) ↔
      x ∈ store_both_collections.policy_collection.map
        (fun r => r.metadata.document_id)) ∧
    (∀ d ∈ group_documents_by_id store_both_collections.policy_collection "policy",
      d.chunk_count = (store_both_collections.policy_collection.filter
        (fun r => r.metadata.document_id = d.document_id)).length) ∧
    (∀ d ∈ group_documents_by_id store_both_collections.policy_collection "policy",
      ∃ m, (store_both_collections.policy_collection.map
          (fun r => r.metadata)).find?
          (fun r => r.document_id = d.document_id) = some m ∧
        d = { group_seed "policy" m with chunk_count := d.chunk_count }) := by
  have h := c8_amended_list_documents ok_env store_both_collections rfl
  exact ⟨h.1, (h.2 store_both_collections.policy_collection "policy").1,
    (h.2 store_both_collections.policy_collection "policy").2.1,
    (h.2 store_both_collections.policy_collection "policy").2.2.1,
    (h.2 store_both_collections.policy_collection "policy").2.2.2⟩

/-- C1 (code bug): `get_document_info` reads `self.collection`, an attribute
that is never assigned; the resulting `AttributeError` is swallowed by the
`except`, so the function returns `chunk_count = 0, document_name = None`
even for a document whose chunks are stored.  Evaluation at the failing
input: one chunk for `doc-1` is stored, yet the info reports zero. -/
theorem c1_get_document_info_broken :
    (store_one_contract.contract_collection.filter
      (fun r => r.metadata.document_id = "doc-1")).length = 1 ∧
    (store_one_contract.contract_collection.map (fun r => r.metadata.document_name)) =
      ["Contract.pdf"] ∧
    get_document_info ok_env store_one_contract "doc-1" =
      { chunk_count := 0, document_name := none, document_id := none } :=
  ⟨by decide, by decide, by decide⟩
